import Mathlib

/-
Verification of the BuzzScope keyword collection and caching engine.
Shallow embedding of the Python sources:
  src/collectors/base_collector.py
  src/collectors/discord_incremental_collector.py
  src/collectors/hackernews_collector.py
  src/services/data_collection_v2.py
  src/analyzers/youtube_analyzer.py
  src/analysis.py
  app_new_keyword_test.py
Text is modelled as List Char (ASCII model of Python str); instants as Int
(epoch seconds or, where noted, epoch milliseconds).
-/

namespace BuzzScope

/-! ## Keyword matcher (base_collector.py, discord_incremental_collector.py) -/

/-- Model of the Python regex word-character class for ASCII text:
letters, digits and underscore. -/
def isWordChar (c : Char) : Bool := c.isAlphanum || c == '_'

/-- Lowercasing of text, modelling Python str.lower on ASCII text. -/
def lowerChars (s : List Char) : List Char := s.map Char.toLower

/-- Whether the text starts with the given pattern. -/
def startsWithChars : List Char → List Char → Bool
  | _, [] => true
  | [], _ :: _ => false
  | c :: cs, d :: ds => c == d && startsWithChars cs ds

/-- Substring containment, modelling the Python operator in on strings. -/
def containsChars (text pat : List Char) : Bool :=
  (List.range (text.length + 1)).any fun i => startsWithChars (text.drop i) pat

/-- Word-character status of position i of the text; out of range counts as
a non-word character, as at the edges of a regex subject. -/
def wordAt (text : List Char) (i : Nat) : Bool :=
  ((text.get? i).map isWordChar).getD false

/-- Word boundary at position p of the text (between characters p-1 and p),
modelling the regex anchor: the word-character status changes there. -/
def boundaryAt (text : List Char) : Nat → Bool
  | 0 => wordAt text 0
  | i + 1 => wordAt text i != wordAt text (i + 1)

/-- Embedding of BaseCollector._exact_phrase_match
(src/collectors/base_collector.py, lines 81-99): the escaped phrase wrapped
in word-boundary anchors is searched in the text. Both arguments arrive
already lowercased, as in the source call sites. -/
def exact_phrase_match (text phrase : List Char) : Bool :=
  (List.range (text.length + 1)).any fun i =>
    startsWithChars (text.drop i) phrase &&
    boundaryAt text i && boundaryAt text (i + phrase.length)

/-- One collected post. Embeds the BasePost fields used by the collectors
(src/models.py): platform, post_id, title, content, author, timestamp. -/
structure Post where
  platform : String
  post_id : String
  title : List Char
  content : List Char
  author : String
  timestamp : Int
deriving DecidableEq

/-- Embedding of BaseCollector.extract_keyword_mentions
(src/collectors/base_collector.py, lines 52-79). -/
def extract_keyword_mentions (posts : List Post) (keyword : List Char)
    (exactMatch : Bool) : List Post :=
  posts.filter fun p =>
    if exactMatch then
      exact_phrase_match (lowerChars p.title) (lowerChars keyword) ||
      exact_phrase_match (lowerChars p.content) (lowerChars keyword)
    else
      containsChars (lowerChars p.title) (lowerChars keyword) ||
      containsChars (lowerChars p.content) (lowerChars keyword)

/-- Splitting on whitespace with empty tokens dropped, modelling the Python
str.split() with no argument. -/
def splitWordsAux (acc : List Char) : List Char → List (List Char)
  | [] => if acc.isEmpty then [] else [acc.reverse]
  | c :: cs =>
    if c.isWhitespace then
      if acc.isEmpty then splitWordsAux [] cs
      else acc.reverse :: splitWordsAux [] cs
    else splitWordsAux (c :: acc) cs

def splitWords (s : List Char) : List (List Char) := splitWordsAux [] s

/-- Embedding of DiscordIncrementalCollector._contains_keyword
(src/collectors/discord_incremental_collector.py, lines 393-404). Note the
source: with exact_match=True it runs a plain substring containment check,
and with exact_match=False it checks that every whitespace-separated word
of the keyword occurs somewhere in the content. -/
def discord_contains_keyword (content keyword : List Char)
    (exactMatch : Bool) : Bool :=
  if content.isEmpty || keyword.isEmpty then false
  else if exactMatch then
    containsChars (lowerChars content) (lowerChars keyword)
  else
    (splitWords (lowerChars keyword)).all fun w =>
      containsChars (lowerChars content) w

/-- Claim C1: for every item and keyword, an exact-mode match succeeds only
when the keyword occurs as a whole word or whole contiguous phrase with
word boundaries on both sides; for keyword ai, body said yields no match
and body using AI today yields a match. The base collector honors this:
exact_phrase_match rejects said and accepts using AI today. But the cited
discord _contains_keyword, with exact_match=True, runs a plain substring
check and reports a match of ai inside said, contradicting the documented
exact-phrase contract of the shared base class. -/
theorem c1_exact_mode_evidence :
    exact_phrase_match (lowerChars ("said".data)) (lowerChars ("ai".data)) = false ∧
    exact_phrase_match (lowerChars ("using AI today".data)) (lowerChars ("ai".data)) = true ∧
    discord_contains_keyword ("said".data) ("ai".data) true = true := by
  decide

/-! ## Incremental watermark tracker
(discord_incremental_collector.py, lines 27-88) -/

/-- The persisted watermark file: either absent (or unreadable, which the
source treats identically) or holding the stored instant. -/
structure WatermarkStore where
  last_collection : Option Int
deriving DecidableEq

/-- Embedding of DiscordIncrementalCollector.get_last_collection_time
(lines 27-38): the stored instant, or a default of 7 days before now when
no watermark exists. Instants are epoch seconds. -/
def get_last_collection_time (st : WatermarkStore) (now : Int) : Int :=
  match st.last_collection with
  | some t => t
  | none => now - 7 * 86400

/-- Embedding of DiscordIncrementalCollector.update_last_collection_time
(lines 40-49): the file is overwritten unconditionally with the given
instant (defaulting to now); the previous value is never read and the
function has no error result. -/
def update_last_collection_time (ts : Option Int) (now : Int)
    (_st : WatermarkStore) : WatermarkStore :=
  { last_collection := some (ts.getD now) }

/-- Outcome of processing one raw export file inside collect_new_data:
either the new posts it yielded, or a raised error (which the source
catches, logs, and skips with continue). -/
inductive FileRes where
  | ok : List Post → FileRes
  | err : FileRes
deriving DecidableEq

/-- The posts accumulated over a directory walk, in file order, with posts
of erroring files skipped (lines 59-80). -/
def gatherNewPosts : List FileRes → List Post
  | [] => []
  | FileRes.ok ps :: rest => ps ++ gatherNewPosts rest
  | FileRes.err :: rest => gatherNewPosts rest

/-- Embedding of DiscordIncrementalCollector.collect_new_data
(lines 51-88): CSV files are walked, then JSON files; per-file errors are
caught and skipped; if any new posts were found the watermark is updated to
now (update_last_collection_time with no argument); clean_posts only
validates and text-cleans the returned list (all fields are total in this
model, so it is the identity) and does not touch the watermark. -/
def collect_new_data (csvFiles jsonFiles : List FileRes) (now : Int)
    (st : WatermarkStore) : List Post × WatermarkStore :=
  let newPosts := gatherNewPosts csvFiles ++ gatherNewPosts jsonFiles
  let st2 := if newPosts.isEmpty then st
             else update_last_collection_time none now st
  (newPosts, st2)

def examplePost : Post :=
  { platform := "discord", post_id := "p1", title := ("t".data),
    content := ("hello".data), author := "alice", timestamp := 150 }

/-- Claim C2 counterexample: a collection pass in which the second file
errors after the first yielded a post (the error is caught and skipped)
still updates the watermark, from the prior value 100 to 200 — the claim
states a failed pass must leave the prior value readable. -/
theorem c2_partial_failure_cex :
    (collect_new_data [FileRes.ok [examplePost], FileRes.err] [] 200
        ⟨some 100⟩).2.last_collection = some 200 ∧
    some (200 : Int) ≠ some (100 : Int) := by
  decide

/-- Claim C2, amended: collect_new_data catches per-file errors and
updates the watermark (to the current instant) exactly when at least one
new post was collected, regardless of whether other files failed; the
update happens as soon as posts are gathered, not after match, dedupe and
cache write; a pass gathering no posts leaves the watermark unchanged. -/
theorem c2_watermark_update_rule (csvFiles jsonFiles : List FileRes)
    (now : Int) (st : WatermarkStore) :
    (collect_new_data csvFiles jsonFiles now st).2 =
      if (gatherNewPosts csvFiles ++ gatherNewPosts jsonFiles).isEmpty
      then st else ⟨some now⟩ := rfl

/-- Claim C3 counterexample: advancing the watermark to 100 and then to
the earlier instant 50 succeeds (the function is total, with no error
result in the source) and stores 50 — the claim states the second call
must fail with NonMonotonicAdvance and the store must remain 100. -/
theorem c3_advance_regression_cex :
    (update_last_collection_time (some 50) 0
        (update_last_collection_time (some 100) 0 ⟨none⟩)).last_collection
      = some 50 ∧
    (update_last_collection_time (some 50) 0
        (update_last_collection_time (some 100) 0 ⟨none⟩)).last_collection
      ≠ some 100 := by
  decide

/-- Claim C3, amended: update_last_collection_time performs no
monotonicity check and has no failure path: advancing to an instant
earlier than the stored one succeeds and silently overwrites the stored
watermark with the earlier instant. -/
theorem c3_advance_overwrites (st : WatermarkStore) (t t2 now1 now2 : Int)
    (h : t2 < t) :
    (update_last_collection_time (some t2) now2
        (update_last_collection_time (some t) now1 st)).last_collection
      = some t2 := rfl

/-- Witness for c3_advance_overwrites at t = 100, t2 = 50. -/
theorem c3_advance_overwrites_witness :
    (update_last_collection_time (some 50) 7
        (update_last_collection_time (some 100) 3 ⟨none⟩)).last_collection
      = some 50 :=
  c3_advance_overwrites ⟨none⟩ 100 50 3 7 (by decide)

/-! ## Identity deduplicator (hackernews_collector.py, lines 236-246) -/

/-- The seen-set loop of HackerNewsCollector._remove_duplicates, with the
set of already-seen ids carried as a list. -/
def removeDuplicatesAux (seen : List String) : List Post → List Post
  | [] => []
  | p :: rest =>
    if p.post_id ∈ seen then removeDuplicatesAux seen rest
    else p :: removeDuplicatesAux (p.post_id :: seen) rest

/-- Embedding of HackerNewsCollector._remove_duplicates (lines 236-246);
the inline loop of search_keyword (lines 52-58) is the same algorithm. -/
def remove_duplicates (posts : List Post) : List Post :=
  removeDuplicatesAux [] posts

theorem removeDuplicatesAux_sublist (seen : List String) (l : List Post) :
    (removeDuplicatesAux seen l).Sublist l := by
  induction l generalizing seen with
  | nil => simp [removeDuplicatesAux]
  | cons p rest ih =>
    simp only [removeDuplicatesAux]
    by_cases h : p.post_id ∈ seen
    · rw [if_pos h]; exact (ih seen).cons p
    · rw [if_neg h]; exact (ih _).cons₂ p

theorem removeDuplicatesAux_id_not_seen (seen : List String)
    (l : List Post) : ∀ q ∈ removeDuplicatesAux seen l, q.post_id ∉ seen := by
  induction l generalizing seen with
  | nil => simp [removeDuplicatesAux]
  | cons p rest ih =>
    intro q hq
    simp only [removeDuplicatesAux] at hq
    by_cases h : p.post_id ∈ seen
    · rw [if_pos h] at hq
      exact ih seen q hq
    · rw [if_neg h] at hq
      rcases List.mem_cons.mp hq with heq | hq2
      · subst heq; exact h
      · intro hmem
        exact ih (p.post_id :: seen) q hq2 (List.mem_cons_of_mem _ hmem)

theorem removeDuplicatesAux_ids_nodup (seen : List String)
    (l : List Post) : ((removeDuplicatesAux seen l).map Post.post_id).Nodup := by
  induction l generalizing seen with
  | nil => simp [removeDuplicatesAux]
  | cons p rest ih =>
    simp only [removeDuplicatesAux]
    by_cases h : p.post_id ∈ seen
    · rw [if_pos h]; exact ih seen
    · rw [if_neg h]
      simp only [List.map_cons, List.nodup_cons]
      refine ⟨?_, ih _⟩
      intro hmem
      rcases List.mem_map.mp hmem with ⟨q, hq, hid⟩
      have hfree := removeDuplicatesAux_id_not_seen _ _ q hq
      apply hfree
      rw [hid]
      exact List.mem_cons_self _ _

theorem removeDuplicatesAux_eq_self (seen : List String) (l : List Post)
    (hfree : ∀ q ∈ l, q.post_id ∉ seen)
    (hnd : (l.map Post.post_id).Nodup) :
    removeDuplicatesAux seen l = l := by
  induction l generalizing seen with
  | nil => simp [removeDuplicatesAux]
  | cons p rest ih =>
    have hp : p.post_id ∉ seen := hfree p (List.mem_cons_self _ _)
    simp only [List.map_cons, List.nodup_cons] at hnd
    simp only [removeDuplicatesAux]
    rw [if_neg hp]
    congr 1
    apply ih
    · intro q hq hmem
      rcases List.mem_cons.mp hmem with heq | hmem2
      · exact hnd.1 (heq ▸ List.mem_map_of_mem Post.post_id hq)
      · exact hfree q (List.mem_cons_of_mem _ hq) hmem2
    · exact hnd.2

/-- Claim C7: remove_duplicates yields no two items with the same
source-local id, preserves first-seen order (its output is a sublist of
the input), is idempotent, and never lengthens the list. -/
theorem c7_dedupe_contract (x : List Post) :
    List.Pairwise (fun a b => a.post_id ≠ b.post_id) (remove_duplicates x) ∧
    (remove_duplicates x).Sublist x ∧
    remove_duplicates (remove_duplicates x) = remove_duplicates x ∧
    (remove_duplicates x).length ≤ x.length := by
  refine ⟨?_, removeDuplicatesAux_sublist [] x, ?_, ?_⟩
  · have h := removeDuplicatesAux_ids_nodup [] x
    rw [List.Nodup, List.pairwise_map] at h
    exact h
  · exact removeDuplicatesAux_eq_self [] _
      (fun q _ hmem => List.not_mem_nil _ hmem)
      (removeDuplicatesAux_ids_nodup [] x)
  · exact (removeDuplicatesAux_sublist [] x).length_le

/-! ## Cache manager (services/data_collection_v2.py) -/

/-- The persisted result dictionary built by _collect_platform_data
(lines 104-112) and stored one per cache file. -/
structure CacheEntry where
  status : String
  data_source : String
  total_posts : Nat
  posts : List Post
  collection_time : Int
  keyword : String
  exact_match : Bool
deriving DecidableEq

/-- A cache file address: (platform directory, sanitized keyword stem). -/
abbrev CacheKey := String × String

/-- The cache directory contents: an association of addresses to stored
entries, most recent write first. -/
abbrev Cache := List (CacheKey × CacheEntry)

def cacheLookup : Cache → CacheKey → Option CacheEntry
  | [], _ => none
  | (k, e) :: rest, q => if k = q then some e else cacheLookup rest q

def cacheInsert (cache : Cache) (k : CacheKey) (e : CacheEntry) : Cache :=
  (k, e) :: cache

/-- One character of _sanitize_keyword: word characters and hyphens are
kept, everything else becomes an underscore. -/
def sanitizeChar (c : Char) : Char :=
  if isWordChar c || c == '-' then c else '_'

/-- Embedding of DataCollectionServiceV2._sanitize_keyword (lines
264-269): lowercase, then replace every character outside the word class
and hyphen with an underscore (ASCII model of the Python regex). -/
def sanitize_keyword (k : String) : String :=
  String.mk ((lowerChars k.data).map sanitizeChar)

/-- The cache file address used by _collect_platform_data (line 89). -/
def cacheKeyOf (platform keyword : String) : CacheKey :=
  (platform, sanitize_keyword keyword)

/-- Embedding of _load_cached_data (lines 280-289) on a readable file: the
stored dictionary is returned with its status field overwritten with the
string cached. The read-failure branch (error entry) is not modelled. -/
def load_cached_data (e : CacheEntry) : CacheEntry :=
  { e with status := "cached" }

/-- Embedding of _save_cached_data (lines 291-298): the entry is written
to the addressed file, replacing previous content. -/
def save_cached_data (cache : Cache) (k : CacheKey) (e : CacheEntry) :
    Cache :=
  cacheInsert cache k e

/-- Reading the addressed cache file through _load_cached_data. -/
def loadFromCache (cache : Cache) (k : CacheKey) : Option CacheEntry :=
  (cacheLookup cache k).map load_cached_data

/-- The fresh result dictionary _collect_platform_data builds after a
collection pass (lines 95-112). The platform collection strategies
(_collect_historical_data and _collect_time_all_data, which perform file
and network reads) are abstracted as the fetch argument. -/
def freshResult (platform keyword : String) (exactMatch : Bool)
    (fetch : String → String → Bool → List Post) (now : Int) : CacheEntry :=
  let posts := fetch platform keyword exactMatch
  { status := "success"
    data_source :=
      if platform = "hackernews" ∨ platform = "discord" then "cache"
      else "time_all"
    total_posts := posts.length
    posts := posts
    collection_time := now
    keyword := keyword
    exact_match := exactMatch }

/-- Embedding of DataCollectionServiceV2._collect_platform_data (lines
83-116): when force_refresh is false and the cache file exists, the loaded
entry is returned and nothing is collected or written; otherwise a new
collection pass runs and its result replaces the stored entry wholesale. -/
def collect_platform_data (platform keyword : String)
    (exactMatch forceRefresh : Bool)
    (fetch : String → String → Bool → List Post) (now : Int)
    (cache : Cache) : CacheEntry × Cache :=
  let key := cacheKeyOf platform keyword
  match forceRefresh, cacheLookup cache key with
  | false, some e => (load_cached_data e, cache)
  | _, _ =>
    let result := freshResult platform keyword exactMatch fetch now
    (result, cacheInsert cache key result)

/-- Modelled from the spec: a cache entry is stale once its collectedAt
instant is older than a configured max age. No staleness predicate exists
anywhere in the repository; this definition follows the glossary of the
spec so that the freshness policy of claim C4 can be stated. -/
def is_stale_spec (e : CacheEntry) (maxAge now : Int) : Bool :=
  decide (e.collection_time + maxAge < now)

def stalePost : Post :=
  { platform := "hackernews", post_id := "old1",
    title := ("iot stuff".data), content := [], author := "bob",
    timestamp := 0 }

def freshPost : Post :=
  { platform := "hackernews", post_id := "new1",
    title := ("iot news".data), content := [], author := "carol",
    timestamp := 999 }

def staleEntry : CacheEntry :=
  { status := "success", data_source := "cache", total_posts := 1,
    posts := [stalePost], collection_time := 0, keyword := "iot",
    exact_match := true }

def cache0 : Cache := [(("hackernews", "iot"), staleEntry)]

/-- Claim C4 counterexample: an entry collected at instant 0, read at
instant 1000000000 (stale under any reasonable max age, here one day), is
returned with forceRefresh false — with its status rewritten to cached —
and no new collection pass runs: the cache is unchanged and the returned
entry still carries collection_time 0 and the old posts, although a fresh
fetch would have yielded freshPost. The claim states a stale entry must
trigger a new collection pass. -/
theorem c4_stale_entry_served_cex :
    is_stale_spec staleEntry 86400 1000000000 = true ∧
    collect_platform_data "hackernews" "iot" true false
        (fun _ _ _ => [freshPost]) 1000000000 cache0
      = (load_cached_data staleEntry, cache0) ∧
    (collect_platform_data "hackernews" "iot" true false
        (fun _ _ _ => [freshPost]) 1000000000 cache0).1.collection_time = 0 := by
  decide

/-- Claim C4, amended: staleness is never consulted. With forceRefresh
false, any existing cache entry — however old — is returned (with its
status field rewritten to cached) and no collection pass runs; a new pass
runs, and its result replaces the stored entry wholesale, exactly when
forceRefresh is true or no entry exists. -/
theorem c4_cache_policy (p k : String) (em fr : Bool)
    (fetch : String → String → Bool → List Post) (now : Int)
    (cache : Cache) :
    (∀ e, fr = false → cacheLookup cache (cacheKeyOf p k) = some e →
        collect_platform_data p k em fr fetch now cache
          = (load_cached_data e, cache)) ∧
    (cacheLookup cache (cacheKeyOf p k) = none →
        collect_platform_data p k em fr fetch now cache
          = (freshResult p k em fetch now,
             cacheInsert cache (cacheKeyOf p k)
               (freshResult p k em fetch now))) ∧
    (fr = true →
        collect_platform_data p k em fr fetch now cache
          = (freshResult p k em fetch now,
             cacheInsert cache (cacheKeyOf p k)
               (freshResult p k em fetch now))) := by
  refine ⟨?_, ?_, ?_⟩
  · rintro e rfl hl
    simp [collect_platform_data, hl]
  · intro hl
    cases fr <;> simp [collect_platform_data, hl]
  · rintro rfl
    simp [collect_platform_data]

/-- Witness for c4_cache_policy: the cache-hit branch at a concrete old
entry. -/
theorem c4_cache_policy_witness :
    collect_platform_data "hackernews" "iot" true false
        (fun _ _ _ => [freshPost]) 7 cache0
      = (load_cached_data staleEntry, cache0) :=
  (c4_cache_policy "hackernews" "iot" true false
      (fun _ _ _ => [freshPost]) 7 cache0).1 staleEntry rfl (by decide)

/-- Claim C5 counterexample: a put of an entry whose status is success,
followed by a get with no intervening put, returns the entry with status
rewritten to cached — not equal field-for-field. -/
theorem c5_roundtrip_cex :
    loadFromCache (save_cached_data [] ("hackernews", "iot") staleEntry)
        ("hackernews", "iot")
      ≠ some staleEntry ∧
    loadFromCache (save_cached_data [] ("hackernews", "iot") staleEntry)
        ("hackernews", "iot")
      = some { staleEntry with status := "cached" } := by
  decide

/-- Claim C5, amended: put followed by get with no intervening put returns
the stored entry with every field preserved except status, which the read
path rewrites to cached; field-for-field equality therefore holds exactly
for entries already marked cached. -/
theorem c5_roundtrip_modulo_status (cache : Cache) (k : CacheKey)
    (e : CacheEntry) :
    loadFromCache (save_cached_data cache k e) k
      = some { e with status := "cached" } := by
  simp [loadFromCache, save_cached_data, cacheInsert, cacheLookup,
    load_cached_data]

/-- Claim C10: two keywords with the same sanitized form share the same
per-platform cache file, so with forceRefresh false the cached result
collected for one of them is served for the other: the same stored entry
(which still carries the keyword field of the request that built it) is
returned, with no collection pass running. The last conjunct runs the full
scenario: a forced collection for the first keyword, then a request for
the second, which is answered from the file the first one wrote. -/
theorem c10_cache_keyword_collision (p k1 k2 : String) (em1 em2 : Bool)
    (fetch fetch2 : String → String → Bool → List Post) (now now2 : Int)
    (cache : Cache)
    (hsan : sanitize_keyword k1 = sanitize_keyword k2) :
    cacheKeyOf p k1 = cacheKeyOf p k2 ∧
    (∀ e, cacheLookup cache (cacheKeyOf p k1) = some e →
        collect_platform_data p k2 em2 false fetch2 now2 cache
          = (load_cached_data e, cache) ∧
        collect_platform_data p k1 em1 false fetch now cache
          = (load_cached_data e, cache)) ∧
    collect_platform_data p k2 em2 false fetch2 now2
        (collect_platform_data p k1 em1 true fetch now cache).2
      = (load_cached_data (freshResult p k1 em1 fetch now),
         (collect_platform_data p k1 em1 true fetch now cache).2) := by
  have hkey : cacheKeyOf p k1 = cacheKeyOf p k2 := by
    simp [cacheKeyOf, hsan]
  refine ⟨hkey, ?_, ?_⟩
  · intro e hl
    constructor
    · simp [collect_platform_data, ← hkey, hl]
    · simp [collect_platform_data, hl]
  · simp [collect_platform_data, cacheInsert, cacheLookup, ← hkey]

def genEntry : CacheEntry :=
  { status := "success", data_source := "cache", total_posts := 0,
    posts := [], collection_time := 3, keyword := "gen ai",
    exact_match := true }

def cacheGen : Cache := [(("hackernews", "gen_ai"), genEntry)]

/-- Witness for c10_cache_keyword_collision: the keywords gen ai and
gen.ai sanitize to the same stem, and the entry cached under the first is
served for the second. -/
theorem c10_cache_keyword_collision_witness :
    collect_platform_data "hackernews" "gen.ai" true false
        (fun _ _ _ => []) 9 cacheGen
      = (load_cached_data genEntry, cacheGen) :=
  ((c10_cache_keyword_collision "hackernews" "gen ai" "gen.ai" true true
      (fun _ _ _ => []) (fun _ _ _ => []) 3 9 cacheGen (by decide)).2.1
    genEntry (by decide)).1

/-! ## Source adapter with fallback matching
(hackernews_collector.py, lines 23-75) -/

/-- Embedding of BaseCollector.filter_by_date_range (base_collector.py,
lines 47-50): keep posts no older than daysBack days before now, with
timestamps in epoch seconds. -/
def filter_by_date_range (posts : List Post) (now daysBack : Int) :
    List Post :=
  posts.filter fun p => decide (now - daysBack * 86400 ≤ p.timestamp)

/-- Embedding of HackerNewsCollector.search_keyword (lines 23-75). The
five fetch strategies (network reads) are abstracted as the already
concatenated fetched list; the inline seen-set loop is remove_duplicates;
when the exact pass yields zero posts in range and exact matching was
requested, the source silently redoes the pass with substring matching
(lines 69-74). The returned posts carry no record of the mode used —
HackerNewsPost (src/models.py) has no such field. clean_posts is the
identity in this model as in the dedupe section. -/
def hn_search_keyword (fetched : List Post) (keyword : List Char)
    (exactMatch : Bool) (now daysBack : Int) : List Post :=
  let uniquePosts := remove_duplicates fetched
  let keywordPosts := extract_keyword_mentions uniquePosts keyword exactMatch
  let filtered := filter_by_date_range keywordPosts now daysBack
  if filtered.isEmpty && exactMatch then
    filter_by_date_range
      (extract_keyword_mentions uniquePosts keyword false) now daysBack
  else filtered

def pSaid : Post :=
  { platform := "hackernews", post_id := "s1", title := [],
    content := ("said".data), author := "dave", timestamp := 100 }

/-- Claim C6 counterexample: for keyword ai over the single post with body
said, the exact pass yields zero matches, the collector falls back to
substring mode and returns the post; the output is indistinguishable from
a substring-mode request, and the cache entry built from the pass records
exact_match = true — the requested mode, not the substring mode actually
used. The claim states the mode actually used is recorded and surfaced. -/
theorem c6_fallback_hidden_cex :
    extract_keyword_mentions (remove_duplicates [pSaid]) ("ai".data) true
      = [] ∧
    hn_search_keyword [pSaid] ("ai".data) true 100 0 = [pSaid] ∧
    hn_search_keyword [pSaid] ("ai".data) true 100 0
      = hn_search_keyword [pSaid] ("ai".data) false 100 0 ∧
    (collect_platform_data "hackernews" "ai" true true
        (fun _ _ _ => hn_search_keyword [pSaid] ("ai".data) true 100 0)
        200 []).1.exact_match = true := by
  decide

/-- Claim C6, amended: when the exact pass yields zero matches the
collector silently retries with substring matching; its output equals the
output of a substring-mode request and carries no mode field, and the
cache entry built from a pass records the requested exact_match flag, so
the fallback is not surfaced to the caller. -/
theorem c6_fallback_silent (fetched : List Post) (kw : List Char)
    (now daysBack : Int) (p k : String)
    (fetch : String → String → Bool → List Post) (t : Int)
    (h : filter_by_date_range
        (extract_keyword_mentions (remove_duplicates fetched) kw true)
        now daysBack = []) :
    hn_search_keyword fetched kw true now daysBack
      = hn_search_keyword fetched kw false now daysBack ∧
    (collect_platform_data p k true true fetch t []).1.exact_match
      = true := by
  constructor
  · simp [hn_search_keyword, h]
  · simp [collect_platform_data, cacheLookup, freshResult]

/-- Witness for c6_fallback_silent at the pSaid scenario. -/
theorem c6_fallback_silent_witness :
    hn_search_keyword [pSaid] ("ai".data) true 100 0
      = hn_search_keyword [pSaid] ("ai".data) false 100 0 ∧
    (collect_platform_data "hackernews" "ai" true true
        (fun _ _ _ => [pSaid]) 200 []).1.exact_match = true :=
  c6_fallback_silent [pSaid] ("ai".data) 100 0 "hackernews" "ai"
    (fun _ _ _ => [pSaid]) 200 (by decide)

/-! ## Metrics aggregator: interaction scores
(app_new_keyword_test.py lines 386-408, analyzers/youtube_analyzer.py
lines 64-69, analysis.py lines 292-304) -/

/-- A video-platform post as the scoring sites see it: the three numeric
interaction fields, each possibly absent (missing dictionary key, None
value, or missing dataframe column). -/
structure YouTubePost where
  view_count : Option Nat
  like_count : Option Nat
  comment_count : Option Nat
deriving DecidableEq

/-- Embedding of the youtube branch of _get_interaction_count
(app_new_keyword_test.py, lines 392-398): views divided by 100 (floor)
plus likes plus comments. -/
def get_interaction_count_youtube (p : YouTubePost) : Nat :=
  p.view_count.getD 0 / 100 + p.like_count.getD 0 + p.comment_count.getD 0

/-- Embedding of YouTubeAnalyzer.calculate_interactions
(analyzers/youtube_analyzer.py, lines 64-69): the raw column sums of
views, likes and comments — no divisor. -/
def calculate_interactions_youtube (posts : List YouTubePost) : Nat :=
  (posts.map fun p => p.view_count.getD 0).sum +
  (posts.map fun p => p.like_count.getD 0).sum +
  (posts.map fun p => p.comment_count.getD 0).sum

/-- Embedding of the youtube branch of _calculate_total_interactions
(analysis.py, lines 298-299): again the raw sums, no divisor. -/
def calculate_total_interactions_youtube (posts : List YouTubePost) : Nat :=
  (posts.map fun p => p.view_count.getD 0).sum +
  (posts.map fun p => p.like_count.getD 0).sum +
  (posts.map fun p => p.comment_count.getD 0).sum

/-- Claim C8 counterexample: for a single video with 100 views and no
likes or comments, the keyword-test app scores 1 (views scaled down by
100) but the youtube analyzer and the analysis module both score 100 (raw
views) — the scaled weighting is not reproduced wherever the score is
computed. -/
theorem c8_weighting_divergence_cex :
    get_interaction_count_youtube ⟨some 100, some 0, some 0⟩ = 1 ∧
    calculate_interactions_youtube [⟨some 100, some 0, some 0⟩] = 100 ∧
    calculate_total_interactions_youtube [⟨some 100, some 0, some 0⟩]
      = 100 ∧
    calculate_interactions_youtube [⟨some 100, some 0, some 0⟩]
      ≠ get_interaction_count_youtube ⟨some 100, some 0, some 0⟩ := by
  decide

theorem sum_map_add_add (f g h : YouTubePost → Nat) (l : List YouTubePost) :
    (l.map f).sum + (l.map g).sum + (l.map h).sum
      = (l.map fun p => f p + g p + h p).sum := by
  induction l with
  | nil => rfl
  | cons p rest ih =>
    simp only [List.map_cons, List.sum_cons]
    omega

/-- Claim C8, amended: only the keyword-test app scales views down by the
fixed divisor 100 before adding likes and comments; the youtube analyzer
and the analysis module compute raw views plus likes plus comments. The
two raw sites agree with each other on every input and decompose into the
per-post unscaled totals, while the app site totals the scaled per-post
formula, so the per-source weighting is not a single formula reproduced
across the computation sites. -/
theorem c8_interaction_sites (posts : List YouTubePost) :
    calculate_interactions_youtube posts
      = calculate_total_interactions_youtube posts ∧
    calculate_interactions_youtube posts
      = (posts.map fun p =>
          p.view_count.getD 0 + p.like_count.getD 0 +
          p.comment_count.getD 0).sum ∧
    (posts.map get_interaction_count_youtube).sum
      = (posts.map fun p =>
          p.view_count.getD 0 / 100 + p.like_count.getD 0 +
          p.comment_count.getD 0).sum := by
  refine ⟨rfl, ?_, rfl⟩
  exact sum_map_add_add _ _ _ posts

/-! ## Temporal normalizer: snowflake timestamps
(app_new_keyword_test.py, _calculate_monthly_mentions, lines 456-503) -/

/-- Python str.isdigit for ASCII text: nonempty and all digits. -/
def pyIsDigit (s : List Char) : Bool := !s.isEmpty && s.all Char.isDigit

/-- Single-character containment, modelling the Python operator in with a
one-character needle. -/
def hasChar (s : List Char) (c : Char) : Bool := s.any fun d => d == c

/-- The branch of the timestamp-format dispatch of
_calculate_monthly_mentions that a raw timestamp string reaches. -/
inductive TsBranch where
  | utcFormat
  | isoT
  | spacePlus
  | spaceNaive
  | snowflake
  | isoOther
deriving DecidableEq

/-- The guard chain of _calculate_monthly_mentions (lines 470-493), in
source order: space with literal UTC first, then ISO with T, then space
with offset, then naive space format, then the snowflake branch for long
all-digit strings, then generic ISO parsing. -/
def tsBranch (s : List Char) : TsBranch :=
  if hasChar s ' ' = true ∧ containsChars s ("UTC".data) = true then
    TsBranch.utcFormat
  else if hasChar s 'T' = true then TsBranch.isoT
  else if hasChar s ' ' = true ∧ hasChar s '+' = true then
    TsBranch.spacePlus
  else if hasChar s ' ' = true then TsBranch.spaceNaive
  else if pyIsDigit s = true ∧ 10 < s.length then TsBranch.snowflake
  else TsBranch.isoOther

/-- Numeric value of an all-digit string, modelling Python int(s). -/
def digitsToNat (s : List Char) : Nat :=
  s.foldl (fun acc c => acc * 10 + (c.toNat - ('0'.toNat))) 0

/-- The chat-archive epoch of the snowflake branch (line 488):
2015-01-01T00:00:00Z in milliseconds since the Unix epoch. -/
def discordEpochMs : Nat := 1420070400000

/-- The epoch instant the snowflake branch computes (line 489): the id
shifted right 22 bits plus the source epoch, in milliseconds. -/
def snowflakeInstantMs (s : List Char) : Nat :=
  digitsToNat s >>> 22 + discordEpochMs

/-- Model of datetime.fromtimestamp (line 490): it renders an epoch
instant as a timezone-naive wall-clock datetime in the local timezone of
the process, here represented by the wall-clock milliseconds, which are
the epoch milliseconds shifted by the local UTC offset. The division by
1000 in the source is the unit change to float seconds and is lossless. -/
def fromtimestampWallClockMs (epochMs tzOffsetMs : Int) : Int :=
  epochMs + tzOffsetMs

/-- The wall-clock value the snowflake branch produces in a process whose
local timezone sits tzOffsetMs away from UTC. -/
def snowflakeWallClockMs (s : List Char) (tzOffsetMs : Int) : Int :=
  fromtimestampWallClockMs (snowflakeInstantMs s) tzOffsetMs

theorem hasChar_eq_false_of_all_digit (s : List Char) (c : Char)
    (hs : s.all Char.isDigit = true) (hc : c.isDigit = false) :
    hasChar s c = false := by
  induction s with
  | nil => rfl
  | cons a t ih =>
    rw [List.all_cons, Bool.and_eq_true] at hs
    rw [hasChar, List.any_cons]
    have ha : (a == c) = false := by
      rcases Bool.eq_false_or_eq_true (a == c) with hac | hac
      · exact absurd (beq_iff_eq.mp hac ▸ hs.1) (by simp [hc])
      · exact hac
    rw [ha, Bool.false_or]
    exact ih hs.2

/-- Claim C9 counterexample: for the 11-character all-digit timestamp
99999999999 the snowflake branch is taken, but the rendered result in a
process one hour east of UTC differs from the result rendered at UTC —
datetime.fromtimestamp uses the local timezone, so the result is not
expressed in UTC as the claim states. -/
theorem c9_snowflake_not_utc_cex :
    tsBranch ("99999999999".data) = TsBranch.snowflake ∧
    snowflakeWallClockMs ("99999999999".data) 3600000
      ≠ snowflakeWallClockMs ("99999999999".data) 0 := by
  decide

/-- Claim C9, amended: every all-digit timestamp string longer than 10
characters reaches the snowflake branch, whose instant is the id shifted
right 22 bits plus 1420070400000 milliseconds after the Unix epoch; but
the instant is rendered by datetime.fromtimestamp as a naive wall clock in
the local timezone of the process — the instant plus the local UTC offset
— and so is expressed in UTC only when that offset is zero. -/
theorem c9_snowflake_localtime (s : List Char) (tz : Int)
    (hd : pyIsDigit s = true) (hl : 10 < s.length) :
    tsBranch s = TsBranch.snowflake ∧
    snowflakeWallClockMs s tz
      = ((digitsToNat s >>> 22 + 1420070400000 : Nat) : Int) + tz := by
  have hall : s.all Char.isDigit = true := by
    rw [pyIsDigit, Bool.and_eq_true] at hd
    exact hd.2
  have hsp : hasChar s ' ' = false :=
    hasChar_eq_false_of_all_digit s ' ' hall (by decide)
  have hT : hasChar s 'T' = false :=
    hasChar_eq_false_of_all_digit s 'T' hall (by decide)
  have n1 : ¬(hasChar s ' ' = true ∧ containsChars s ("UTC".data) = true) := by
    rintro ⟨h1, -⟩
    rw [hsp] at h1
    exact Bool.false_ne_true h1
  have n2 : ¬(hasChar s 'T' = true) := by
    intro h1
    rw [hT] at h1
    exact Bool.false_ne_true h1
  have n3 : ¬(hasChar s ' ' = true ∧ hasChar s '+' = true) := by
    rintro ⟨h1, -⟩
    rw [hsp] at h1
    exact Bool.false_ne_true h1
  have n4 : ¬(hasChar s ' ' = true) := by
    intro h1
    rw [hsp] at h1
    exact Bool.false_ne_true h1
  constructor
  · rw [tsBranch, if_neg n1, if_neg n2, if_neg n3, if_neg n4,
      if_pos ⟨hd, hl⟩]
  · rfl

/-- Witness for c9_snowflake_localtime at the 11-digit string and a
one-hour local offset. -/
theorem c9_snowflake_localtime_witness :
    tsBranch ("99999999999".data) = TsBranch.snowflake ∧
    snowflakeWallClockMs ("99999999999".data) 3600000
      = ((digitsToNat ("99999999999".data) >>> 22 + 1420070400000 : Nat) : Int)
        + 3600000 :=
  c9_snowflake_localtime ("99999999999".data) 3600000 (by decide) (by decide)

end BuzzScope
